import Mathlib

/-!
Shallow embedding of `examples/qr_scanner/qr_scanner_gui.py` (class
`QRScannerApp`).  The GUI/event-loop side effects (status label, dialogs,
camera release, frame rendering, `master.after` scheduling) are made explicit:
a tick returns the successor state, the delay of the next scheduled tick (if
any), and the list of externally visible events it produced, in program order.
Frames and the OpenCV detector are boundary collaborators, so a tick takes the
camera/detector outcome as input.  Rational numbers stand in for the Python
floats (all scale factors used by the program are exactly representable), and
`numpy`'s `astype(int)` (truncation toward zero) is modelled by `truncQ`.
-/

/-- Status string set while scanning (lines 34, 89, 145). -/
def waitingMsg : String := "Waiting for QR code..."

/-- Status string set on a failed camera read (line 62). -/
def readFailMsg : String := "Camera read failed"

/-- Status string set on a new detection (line 82). -/
def detectedMsg : String := "QR detected - camera stopped"

/-- Error-dialog text of `open_camera` (line 134). -/
def camErrMsg (i : Int) : String := "Cannot open camera index " ++ toString i

/-- The mutable state of a `QRScannerApp` instance: `running`, the camera
handle (abstracted to whether it is open), the camera index, `last_result`,
the status label text, `decoded_history` and the construction parameters. -/
structure AppState where
  running : Bool
  cameraOpen : Bool
  camera_index : Int
  last_result : Option String
  status : String
  decoded_history : List String
  history_size : Nat
  display_scale : ℚ
  decode_scale : ℚ
deriving Repr, DecidableEq

/-- Outcome of `detector.detectAndDecodeMulti` on one frame (line 121):
the success flag, the decoded strings (possibly empty strings), and the
polygon point sets. -/
structure DetectorResult where
  retval : Bool
  decoded_info : List String
  pts : List (List (ℚ × ℚ))
deriving Repr, DecidableEq

/-- Externally visible effects of one callback, in program order. -/
inductive Event where
  | statusSet (msg : String)
  | showInfo (title msg : String)
  | showError (title msg : String)
  | render (resized : Bool) (scale : ℚ) (segments : List ((ℤ × ℤ) × (ℤ × ℤ)))
  | release
  | exitProcess
deriving Repr, DecidableEq

/-- Whether an event is the rendering of a display frame (lines 110-114). -/
def isRenderEvent : Event → Bool
  | Event.render _ _ _ => true
  | _ => false

/-- What `self.video.read()` produced at the start of a tick (line 60):
failure, or a frame whose detector outcome is `d`. -/
inductive TickInput where
  | readFail
  | readOk (d : DetectorResult)
deriving Repr, DecidableEq

/-- `numpy` `astype(int)`: truncation toward zero (`Int.tdiv` is T-division
and the denominator of a `Rat` is positive). -/
def truncQ (q : ℚ) : ℤ := Int.tdiv q.num q.den

/-- One point of a polygon after `bbox * scale_factor` and `astype(int)`
(line 100). -/
def scalePoint (sf : ℚ) (p : ℚ × ℚ) : ℤ × ℤ := (truncQ (p.1 * sf), truncQ (p.2 * sf))

/-- The line segments drawn for one polygon (lines 100-108): point `i` is
joined to point `(i + 1) % len`. -/
def polySegments (sf : ℚ) (bbox : List (ℚ × ℚ)) : List ((ℤ × ℤ) × (ℤ × ℤ)) :=
  let pts := bbox.map (scalePoint sf)
  (List.range pts.length).map (fun i => (pts.getD i (0, 0), pts.getD ((i + 1) % pts.length) (0, 0)))

/-- All segments drawn on the display frame, one polygon after the other
(lines 99-108). -/
def drawSegments (sf : ℚ) (ps : List (List (ℚ × ℚ))) : List ((ℤ × ℤ) × (ℤ × ℤ)) :=
  (ps.map (polySegments sf)).flatten

/-- `QRScannerApp.decode_qr` (lines 118-125): on detector success the empty
strings are filtered out of `decoded_info` and the points are passed through;
otherwise no texts and no points. -/
def decode_qr (d : DetectorResult) : List String × Option (List (List (ℚ × ℚ))) :=
  if d.retval then (d.decoded_info.filter (fun t => t ≠ ""), some d.pts) else ([], none)

/-- Python `l[-n:]` for a non-negative `n` (line 152): the last `n` elements,
except that `l[-0:]` is the whole list. -/
def pyLastSlice (l : List String) (n : Nat) : List String :=
  if n = 0 then l else l.drop (l.length - n)

/-- `QRScannerApp.append_history` (lines 148-156), restricted to its effect on
`decoded_history` (the text widget mirrors the list). -/
def append_history (size : Nat) (hist : List String) (text : String) : List String :=
  if text = "" then hist
  else
    let h := hist ++ [text]
    if size < h.length then pyLastSlice h size else h

/-- `scale_factor` of `update_frame` (line 98): the display scale divided by
the decode scale, used to map polygon points from decode-resolution
coordinates back onto the display frame. -/
def scale_factor (s : AppState) : ℚ := s.display_scale / s.decode_scale

/-- `QRScannerApp.update_frame` (lines 56-116).  Returns the new state, the
delay in ms of the next scheduled tick (`none` when no tick is scheduled),
and the visible events in program order. -/
def update_frame (s : AppState) (i : TickInput) : AppState × Option Nat × List Event :=
  if s.running then
    match i with
    | TickInput.readFail =>
        ({ s with status := readFailMsg }, some 200, [Event.statusSet readFailMsg])
    | TickInput.readOk d =>
        let texts := (decode_qr d).1
        let points := (decode_qr d).2
        if texts ≠ [] ∧ some (texts.getLastD "") ≠ s.last_result then
          let newest := texts.getLastD ""
          ({ s with last_result := some newest,
                    decoded_history := append_history s.history_size s.decoded_history newest,
                    status := detectedMsg,
                    running := false,
                    cameraOpen := false },
           none,
           [Event.statusSet detectedMsg]
             ++ (if s.cameraOpen then [Event.release] else [])
             ++ [Event.showInfo "QR detected" newest])
        else
          let s1 := if texts = [] then { s with status := waitingMsg } else s
          let segs := match points with
            | none => []
            | some ps => drawSegments (scale_factor s) ps
          let statusEvs := if texts = [] then [Event.statusSet waitingMsg] else []
          (s1, some 10,
           statusEvs ++ [Event.render (if s.display_scale = 1 then false else true)
             s.display_scale segs])
  else (s, none, [])

/-- `QRScannerApp.open_camera` (lines 127-136).  Whether the capture device
opens is a boundary outcome, taken as input; on failure an error dialog is
shown and `false` returned. -/
def open_camera (s : AppState) (openOk : Bool) : AppState × Bool × List Event :=
  let s1 := { s with cameraOpen := openOk }
  if openOk then (s1, true, [])
  else (s1, false, [Event.showError "Camera Error" (camErrMsg s.camera_index)])

/-- `QRScannerApp.resume_scan` (lines 138-146).  The returned `Bool` records
whether `update_frame` was invoked at the end (scheduling resumed). -/
def resume_scan (s : AppState) (openOk : Bool) : AppState × Bool × List Event :=
  if s.running then (s, false, [])
  else
    let r := open_camera s openOk
    if r.2.1 then
      ({ r.1 with last_result := none, running := true, status := waitingMsg },
       true, r.2.2 ++ [Event.statusSet waitingMsg])
    else (r.1, false, r.2.2)

/-- The state built by `QRScannerApp.__init__` (lines 11-54) just before it
calls `open_camera`. -/
def initState (camera_index : Int) (history_size : Nat) (display_scale decode_scale : ℚ) :
    AppState :=
  { running := true, cameraOpen := false, camera_index := camera_index,
    last_result := none, status := waitingMsg, decoded_history := [],
    history_size := history_size, display_scale := display_scale,
    decode_scale := decode_scale }

/-- `QRScannerApp.__init__` up to (but not including) its final
`update_frame()` call: on camera-open failure the error dialog is shown and
the process exits (`sys.exit(1)`, line 28), modelled as `none` plus an
`exitProcess` event. -/
def initApp (camera_index : Int) (history_size : Nat) (display_scale decode_scale : ℚ)
    (openOk : Bool) : Option AppState × List Event :=
  let r := open_camera (initState camera_index history_size display_scale decode_scale) openOk
  if r.2.1 then (some r.1, r.2.2) else (none, r.2.2 ++ [Event.exitProcess])

/-- The state after `n` consecutive ticks whose camera read fails. -/
def failTicks (s : AppState) : Nat → AppState
  | 0 => s
  | n + 1 => (update_frame (failTicks s n) TickInput.readFail).1


/-! ## Concrete instances used by witnesses and counterexamples -/

/-- A scanning state as reached right after a successful startup (camera
open, empty history, nothing detected yet), with history size 20. -/
def scanState : AppState :=
  { running := true, cameraOpen := true, camera_index := 0, last_result := none,
    status := waitingMsg, decoded_history := [], history_size := 20,
    display_scale := 1, decode_scale := 1 }

/-- The paused state reached from `scanState` after the text "hello" was
detected. -/
def pausedState : AppState :=
  { scanState with
    running := false, cameraOpen := false,
    last_result := some "hello", status := detectedMsg,
    decoded_history := ["hello"] }

/-- A detector outcome that decodes the single text "hello". -/
def dHello : DetectorResult := ⟨true, ["hello"], []⟩

/-- A detector outcome where a QR code is located (`retval` true, a polygon
is reported) but its payload fails to decode (the only string is empty). -/
def dEmptyText : DetectorResult := ⟨true, [""], [[(0, 0)]]⟩

/-- 25 pairwise distinct non-empty texts. -/
def ts25 : List String :=
  ["t01", "t02", "t03", "t04", "t05", "t06", "t07", "t08", "t09", "t10",
   "t11", "t12", "t13", "t14", "t15", "t16", "t17", "t18", "t19", "t20",
   "t21", "t22", "t23", "t24", "t25"]

/-! ## Helper lemmas -/

/-- A tick on a paused session does nothing: no state change, no scheduled
tick, no events (line 57-58). -/
theorem update_frame_not_running (s : AppState) (i : TickInput) (h : s.running = false) :
    update_frame s i = (s, none, []) := by
  simp [update_frame, h]

/-- Every text returned by `decode_qr` is non-empty. -/
theorem decode_qr_texts_ne (d : DetectorResult) : ∀ t ∈ (decode_qr d).1, t ≠ "" := by
  intro t ht
  unfold decode_qr at ht
  by_cases h : d.retval
  · simp only [h, if_true] at ht
    have h2 := (List.mem_filter.1 ht).2
    simpa using h2
  · simp [h] at ht

/-- The last element of a non-empty list belongs to it. -/
theorem getLastD_mem_of_ne_nil {α : Type} (l : List α) (d : α) (h : l ≠ []) :
    l.getLastD d ∈ l := by
  cases l with
  | nil => exact absurd rfl h
  | cons a as => rw [List.getLastD_cons]; exact List.getLastD_mem_cons as a

/-- The newest decoded text taken on line 78 is non-empty. -/
theorem newest_ne_empty (d : DetectorResult) (hne : (decode_qr d).1 ≠ []) :
    (decode_qr d).1.getLastD "" ≠ "" :=
  decode_qr_texts_ne d _ (getLastD_mem_of_ne_nil _ _ hne)

/-- When the history has room, `append_history` simply appends. -/
theorem append_history_of_lt (size : Nat) (hist : List String) (t : String)
    (ht : t ≠ "") (hlen : hist.length < size) :
    append_history size hist t = hist ++ [t] := by
  unfold append_history
  rw [if_neg ht, if_neg]
  simp only [List.length_append, List.length_cons, List.length_nil]
  omega

/-- Closed form of `append_history` on a non-empty text, for every history
and every configured maximum: the text is appended and, when the cap is
exceeded, the front is dropped (for maximum 0 Python's `l[-0:]` keeps the
whole list). -/
theorem append_history_eq (size : Nat) (hist : List String) (t : String)
    (ht : t ≠ "") :
    append_history size hist t =
      if size = 0 then hist ++ [t]
      else (hist ++ [t]).drop (hist.length + 1 - size) := by
  have hlen : (hist ++ [t]).length = hist.length + 1 := by simp
  unfold append_history
  rw [if_neg ht]
  show (if size < (hist ++ [t]).length then pyLastSlice (hist ++ [t]) size
        else hist ++ [t]) =
      if size = 0 then hist ++ [t]
      else (hist ++ [t]).drop (hist.length + 1 - size)
  rw [hlen]
  by_cases h0 : size = 0
  · rw [if_pos (show size < hist.length + 1 by omega)]
    unfold pyLastSlice
    rw [if_pos h0, if_pos h0]
  · rw [if_neg h0]
    by_cases hlt : size < hist.length + 1
    · rw [if_pos hlt]
      unfold pyLastSlice
      rw [if_neg h0, hlen]
    · rw [if_neg hlt]
      have h1 : hist.length + 1 - size = 0 := by omega
      rw [h1, List.drop_zero]

/-- Appending a non-empty text yields a suffix of `hist ++ [t]`: nothing but
the oldest entries is ever removed, and nothing else is added. -/
theorem append_history_suffix (size : Nat) (hist : List String) (t : String)
    (ht : t ≠ "") :
    append_history size hist t <:+ hist ++ [t] := by
  rw [append_history_eq size hist t ht]
  by_cases h0 : size = 0
  · rw [if_pos h0]
  · rw [if_neg h0]
    exact List.drop_suffix _ _

/-- After appending a non-empty text, that text is the newest entry. -/
theorem append_history_getLastD (size : Nat) (hist : List String) (t : String)
    (ht : t ≠ "") :
    (append_history size hist t).getLastD "" = t := by
  rw [append_history_eq size hist t ht]
  by_cases h0 : size = 0
  · rw [if_pos h0, List.getLastD_concat]
  · rw [if_neg h0]
    rw [List.drop_append_of_le_length (show hist.length + 1 - size ≤ hist.length by omega)]
    rw [List.getLastD_concat]

/-- Evaluation of a tick that delivers a new detection (lines 77-87). -/
theorem update_frame_detect (s : AppState) (d : DetectorResult)
    (hrun : s.running = true)
    (hne : (decode_qr d).1 ≠ [])
    (hnew : some ((decode_qr d).1.getLastD "") ≠ s.last_result) :
    update_frame s (TickInput.readOk d) =
      ({ s with last_result := some ((decode_qr d).1.getLastD ""),
                decoded_history := append_history s.history_size s.decoded_history
                  ((decode_qr d).1.getLastD ""),
                status := detectedMsg, running := false, cameraOpen := false },
       none,
       [Event.statusSet detectedMsg]
         ++ (if s.cameraOpen then [Event.release] else [])
         ++ [Event.showInfo "QR detected" ((decode_qr d).1.getLastD "")]) := by
  have hc : (decode_qr d).1 ≠ [] ∧ some ((decode_qr d).1.getLastD "") ≠ s.last_result :=
    ⟨hne, hnew⟩
  simp only [update_frame, hrun, if_true, if_pos hc]

/-- Evaluation of a tick that reads a frame but delivers no new detection
(lines 88-116): the display path runs and the next tick is scheduled. -/
theorem update_frame_no_detect (s : AppState) (d : DetectorResult)
    (hrun : s.running = true)
    (hnd : ¬((decode_qr d).1 ≠ [] ∧ some ((decode_qr d).1.getLastD "") ≠ s.last_result)) :
    update_frame s (TickInput.readOk d) =
      ((if (decode_qr d).1 = [] then { s with status := waitingMsg } else s),
       some 10,
       (if (decode_qr d).1 = [] then [Event.statusSet waitingMsg] else [])
         ++ [Event.render (if s.display_scale = 1 then false else true) s.display_scale
              (match (decode_qr d).2 with
               | none => []
               | some ps => drawSegments (scale_factor s) ps)]) := by
  simp only [update_frame, hrun, if_true, if_neg hnd]

/-- A failed-read tick only updates the status and schedules a retry after
200 ms (lines 61-64). -/
theorem update_frame_readFail (s : AppState) (hrun : s.running = true) :
    update_frame s TickInput.readFail =
      ({ s with status := readFailMsg }, some 200, [Event.statusSet readFailMsg]) := by
  simp [update_frame, hrun]

/-- One `append_history` step on a suffix-shaped history, stated the way the
fold needs it. -/
theorem append_history_drop (size : Nat) (hpos : 0 < size) (ts : List String)
    (t : String) (ht : t ≠ "") :
    append_history size (ts.drop (ts.length - size)) t
      = (ts ++ [t]).drop ((ts ++ [t]).length - size) := by
  unfold append_history
  rw [if_neg ht]
  by_cases hcase : ts.length < size
  · have h0 : ts.length - size = 0 := by omega
    have h1 : (ts ++ [t]).length - size = 0 := by
      simp only [List.length_append, List.length_cons, List.length_nil]
      omega
    rw [h0, h1, List.drop_zero, List.drop_zero, if_neg]
    simp only [List.length_append, List.length_cons, List.length_nil]
    omega
  · have hsz : size ≤ ts.length := Nat.le_of_not_lt hcase
    have hlendrop : (ts.drop (ts.length - size)).length = size := by
      rw [List.length_drop]; omega
    rw [if_pos]
    · unfold pyLastSlice
      rw [if_neg (Nat.pos_iff_ne_zero.mp hpos)]
      have hlen2 : (ts.drop (ts.length - size) ++ [t]).length - size = 1 := by
        simp only [List.length_append, List.length_cons, List.length_nil, hlendrop]
        omega
      rw [hlen2]
      rw [List.drop_append_of_le_length (by omega : 1 ≤ (ts.drop (ts.length - size)).length)]
      rw [List.drop_drop]
      rw [List.drop_append_of_le_length (by simp; omega : (ts ++ [t]).length - size ≤ ts.length)]
      congr 2
      simp only [List.length_append, List.length_cons, List.length_nil]
      omega
    · simp only [List.length_append, List.length_cons, List.length_nil, hlendrop]
      omega

/-- Closed form of repeated failing reads: only the status ever changes. -/
theorem failTicks_closed (s : AppState) (hrun : s.running = true) :
    ∀ n, failTicks s n = if n = 0 then s else { s with status := readFailMsg } := by
  intro n
  induction n with
  | zero => rfl
  | succ m ih =>
    cases m with
    | zero =>
      simp only [failTicks, ih]
      rw [update_frame_readFail s hrun]
      rfl
    | succ k =>
      simp only [failTicks] at ih ⊢
      rw [ih]
      simp only [Nat.succ_ne_zero, if_false]
      rw [update_frame_readFail { s with status := readFailMsg } hrun]

/-! ## Claims -/

/-- C1: on every tick in which decoding yields at least one non-empty text
and the newest decoded text differs from the previously reported one,
exactly one entry is appended to the history (the new history is
`append_history` of the old one: a suffix of `old ++ [newest]` ending in the
newest text, and literally `old ++ [newest]` whenever the history is below
the cap), the session pauses (`running` becomes false), the camera handle is
released, no next tick is scheduled, and any tick arriving before a resume
leaves the paused state untouched. -/
theorem c1_new_detection_pauses (s : AppState) (d : DetectorResult)
    (hrun : s.running = true)
    (hne : (decode_qr d).1 ≠ [])
    (hnew : some ((decode_qr d).1.getLastD "") ≠ s.last_result) :
    (update_frame s (TickInput.readOk d)).1.decoded_history
        = append_history s.history_size s.decoded_history
            ((decode_qr d).1.getLastD "") ∧
    (update_frame s (TickInput.readOk d)).1.decoded_history
        <:+ s.decoded_history ++ [(decode_qr d).1.getLastD ""] ∧
    ((update_frame s (TickInput.readOk d)).1.decoded_history).getLastD ""
        = (decode_qr d).1.getLastD "" ∧
    (s.decoded_history.length < s.history_size →
      (update_frame s (TickInput.readOk d)).1.decoded_history
          = s.decoded_history ++ [(decode_qr d).1.getLastD ""]) ∧
    (update_frame s (TickInput.readOk d)).1.running = false ∧
    (update_frame s (TickInput.readOk d)).1.cameraOpen = false ∧
    (update_frame s (TickInput.readOk d)).2.1 = none ∧
    ∀ i, update_frame (update_frame s (TickInput.readOk d)).1 i
        = ((update_frame s (TickInput.readOk d)).1, none, []) := by
  have hd := update_frame_detect s d hrun hne hnew
  have htne := newest_ne_empty d hne
  rw [hd]
  refine ⟨rfl, ?_, ?_, ?_, rfl, rfl, rfl, ?_⟩
  · exact append_history_suffix _ _ _ htne
  · exact append_history_getLastD _ _ _ htne
  · intro hlen
    exact append_history_of_lt _ _ _ htne hlen
  · intro i
    exact update_frame_not_running _ i rfl

/-- C1 witness: the freshly started app sees "hello". -/
theorem c1_witness :
    scanState.running = true ∧ (decode_qr dHello).1 ≠ [] ∧
    some ((decode_qr dHello).1.getLastD "") ≠ scanState.last_result ∧
    ((update_frame scanState (TickInput.readOk dHello)).1.decoded_history
        = append_history scanState.history_size scanState.decoded_history
            ((decode_qr dHello).1.getLastD "") ∧
    (update_frame scanState (TickInput.readOk dHello)).1.decoded_history
        <:+ scanState.decoded_history ++ [(decode_qr dHello).1.getLastD ""] ∧
    ((update_frame scanState (TickInput.readOk dHello)).1.decoded_history).getLastD ""
        = (decode_qr dHello).1.getLastD "" ∧
    (scanState.decoded_history.length < scanState.history_size →
      (update_frame scanState (TickInput.readOk dHello)).1.decoded_history
          = scanState.decoded_history ++ [(decode_qr dHello).1.getLastD ""]) ∧
    (update_frame scanState (TickInput.readOk dHello)).1.running = false ∧
    (update_frame scanState (TickInput.readOk dHello)).1.cameraOpen = false ∧
    (update_frame scanState (TickInput.readOk dHello)).2.1 = none ∧
    ∀ i, update_frame (update_frame scanState (TickInput.readOk dHello)).1 i
        = ((update_frame scanState (TickInput.readOk dHello)).1, none, [])) :=
  ⟨rfl, by decide, by decide,
   c1_new_detection_pauses scanState dHello rfl (by decide) (by decide)⟩

/-- C2 counterexample: from the freshly started state, two consecutive ticks
both decode "hello".  The pair does produce exactly one history entry, but
the first tick pauses the session, so after the second tick `running` is
still false and the second tick scheduled nothing: scanning does not
continue, refuting the claim at this input. -/
theorem c2_counterexample :
    (update_frame scanState (TickInput.readOk dHello)).1.running = false ∧
    update_frame (update_frame scanState (TickInput.readOk dHello)).1
        (TickInput.readOk dHello)
      = ((update_frame scanState (TickInput.readOk dHello)).1, none, []) ∧
    (update_frame (update_frame scanState (TickInput.readOk dHello)).1
        (TickInput.readOk dHello)).1.decoded_history = ["hello"] :=
  ⟨rfl, update_frame_not_running _ _ rfl, rfl⟩

/-- C2 amended: for two consecutive ticks whose decoded newest text is the
identical (new) string, exactly one history entry results from the pair and
the second tick appends nothing - but not because of the dedup comparison:
the first tick pauses the session, and the second tick is a no-op on the
paused state rather than a continuation of scanning. -/
theorem c2_pair_single_entry (s : AppState) (d : DetectorResult)
    (hrun : s.running = true)
    (hne : (decode_qr d).1 ≠ [])
    (hnew : some ((decode_qr d).1.getLastD "") ≠ s.last_result) :
    (update_frame (update_frame s (TickInput.readOk d)).1
        (TickInput.readOk d)).1.decoded_history
      = append_history s.history_size s.decoded_history
          ((decode_qr d).1.getLastD "") ∧
    (update_frame (update_frame s (TickInput.readOk d)).1
        (TickInput.readOk d)).1.decoded_history
      <:+ s.decoded_history ++ [(decode_qr d).1.getLastD ""] ∧
    (s.decoded_history.length < s.history_size →
      (update_frame (update_frame s (TickInput.readOk d)).1
          (TickInput.readOk d)).1.decoded_history
        = s.decoded_history ++ [(decode_qr d).1.getLastD ""]) ∧
    (update_frame s (TickInput.readOk d)).1.running = false ∧
    update_frame (update_frame s (TickInput.readOk d)).1 (TickInput.readOk d)
      = ((update_frame s (TickInput.readOk d)).1, none, []) := by
  have hd := update_frame_detect s d hrun hne hnew
  have htne := newest_ne_empty d hne
  have hstop : (update_frame s (TickInput.readOk d)).1.running = false := by rw [hd]
  have hsecond := update_frame_not_running (update_frame s (TickInput.readOk d)).1
      (TickInput.readOk d) hstop
  refine ⟨?_, ?_, ?_, hstop, hsecond⟩
  · rw [hsecond, hd]
  · rw [hsecond, hd]
    exact append_history_suffix _ _ _ htne
  · intro hlen
    rw [hsecond, hd]
    exact append_history_of_lt _ _ _ htne hlen

/-- C2 witness: the pair of identical "hello" ticks from the start state. -/
theorem c2_witness :
    scanState.running = true ∧ (decode_qr dHello).1 ≠ [] ∧
    some ((decode_qr dHello).1.getLastD "") ≠ scanState.last_result ∧
    ((update_frame (update_frame scanState (TickInput.readOk dHello)).1
        (TickInput.readOk dHello)).1.decoded_history
      = append_history scanState.history_size scanState.decoded_history
          ((decode_qr dHello).1.getLastD "") ∧
    (update_frame (update_frame scanState (TickInput.readOk dHello)).1
        (TickInput.readOk dHello)).1.decoded_history
      <:+ scanState.decoded_history ++ [(decode_qr dHello).1.getLastD ""] ∧
    (scanState.decoded_history.length < scanState.history_size →
      (update_frame (update_frame scanState (TickInput.readOk dHello)).1
          (TickInput.readOk dHello)).1.decoded_history
        = scanState.decoded_history ++ [(decode_qr dHello).1.getLastD ""]) ∧
    (update_frame scanState (TickInput.readOk dHello)).1.running = false ∧
    update_frame (update_frame scanState (TickInput.readOk dHello)).1
        (TickInput.readOk dHello)
      = ((update_frame scanState (TickInput.readOk dHello)).1, none, [])) :=
  ⟨rfl, by decide, by decide,
   c2_pair_single_entry scanState dHello rfl (by decide) (by decide)⟩

/-- C5: a failed camera read while scanning changes nothing but the status
text, schedules the next tick after 200 ms, and does so again on every later
failing tick: `running` stays true indefinitely. -/
theorem c5_read_failure_transient (s : AppState) (hrun : s.running = true) :
    update_frame s TickInput.readFail =
      ({ s with status := readFailMsg }, some 200, [Event.statusSet readFailMsg]) ∧
    (∀ n, failTicks s n = if n = 0 then s else { s with status := readFailMsg }) ∧
    ∀ n, (update_frame (failTicks s n) TickInput.readFail).2.1 = some 200 := by
  refine ⟨update_frame_readFail s hrun, failTicks_closed s hrun, ?_⟩
  intro n
  rw [failTicks_closed s hrun n]
  by_cases hn : n = 0
  · rw [if_pos hn, update_frame_readFail s hrun]
  · rw [if_neg hn, update_frame_readFail { s with status := readFailMsg } hrun]

/-- C5 witness: a failing read on the freshly started state. -/
theorem c5_witness :
    scanState.running = true ∧
    (update_frame scanState TickInput.readFail =
      ({ scanState with status := readFailMsg }, some 200, [Event.statusSet readFailMsg]) ∧
    (∀ n, failTicks scanState n =
      if n = 0 then scanState else { scanState with status := readFailMsg }) ∧
    ∀ n, (update_frame (failTicks scanState n) TickInput.readFail).2.1 = some 200) :=
  ⟨rfl, c5_read_failure_transient scanState rfl⟩

/-- C10: invoking the resume action while already scanning is a complete
no-op: same state (camera, flag, memo, status, history all unchanged), no
tick invoked, no events. -/
theorem c10_resume_while_running_noop (s : AppState) (openOk : Bool)
    (hrun : s.running = true) :
    resume_scan s openOk = (s, false, []) := by
  simp [resume_scan, hrun]

/-- C10 witness: resume pressed on the freshly started (running) state. -/
theorem c10_witness :
    scanState.running = true ∧ resume_scan scanState true = (scanState, false, []) :=
  ⟨rfl, c10_resume_while_running_noop scanState true rfl⟩

/-- C3: with a positive configured maximum, every `append_history` call with
a non-empty text leaves the history length at most the maximum; and a whole
run of appends from the empty history keeps exactly the newest `size`
entries in insertion order (the oldest are evicted first), e.g. 25 appends
with maximum 20 keep the last 20 in order. -/
theorem c3_history_bounded_fifo (size : Nat) (hpos : 0 < size) :
    (∀ hist t, t ≠ "" → hist.length ≤ size →
        (append_history size hist t).length ≤ size) ∧
    (∀ ts : List String, (∀ t ∈ ts, t ≠ "") →
        List.foldl (append_history size) [] ts = ts.drop (ts.length - size)) := by
  constructor
  · intro hist t ht hlen
    unfold append_history
    rw [if_neg ht]
    by_cases hgt : size < (hist ++ [t]).length
    · rw [if_pos hgt]
      unfold pyLastSlice
      rw [if_neg (Nat.pos_iff_ne_zero.mp hpos)]
      rw [List.length_drop]
      omega
    · rw [if_neg hgt]
      omega
  · intro ts hts
    induction ts using List.reverseRecOn with
    | nil => simp
    | append_singleton ts t ih =>
      have hts' : ∀ x ∈ ts, x ≠ "" := fun x hx => hts x (List.mem_append_left _ hx)
      have ht : t ≠ "" := hts t (List.mem_append_right _ (List.mem_singleton_self t))
      rw [List.foldl_append, ih hts']
      simpa using append_history_drop size hpos ts t ht

/-- C3 witness: 25 distinct appends with the default maximum 20 keep the
last 20 entries. -/
theorem c3_witness :
    0 < 20 ∧ (∀ t ∈ ts25, t ≠ "") ∧
    List.foldl (append_history 20) [] ts25 = ts25.drop (ts25.length - 20) :=
  ⟨by decide, by decide,
   (c3_history_bounded_fifo 20 (by decide)).2 ts25 (by decide)⟩

/-- Reading a scaled polygon point out of the mapped list. -/
theorem getD_map_scalePoint (sf : ℚ) (bbox : List (ℚ × ℚ)) (j : Nat)
    (hj : j < bbox.length) :
    (bbox.map (scalePoint sf)).getD j (0, 0) = scalePoint sf (bbox.getD j (0, 0)) := by
  rw [List.getD_eq_getElem?_getD, List.getElem?_map, List.getElem?_eq_getElem hj]
  rw [List.getD_eq_getElem?_getD, List.getElem?_eq_getElem hj]
  rfl

/-- The segment at index `i` joins the scaled point `i` to the scaled point
`(i + 1) % len` (lines 100-108). -/
theorem polySegments_getD (sf : ℚ) (bbox : List (ℚ × ℚ)) (i : Nat)
    (hi : i < bbox.length) :
    (polySegments sf bbox).getD i ((0, 0), (0, 0)) =
      (scalePoint sf (bbox.getD i (0, 0)),
       scalePoint sf (bbox.getD ((i + 1) % bbox.length) (0, 0))) := by
  have hpos : 0 < bbox.length := Nat.lt_of_le_of_lt (Nat.zero_le i) hi
  have hmod : (i + 1) % bbox.length < bbox.length := Nat.mod_lt _ hpos
  simp only [polySegments, List.length_map]
  rw [List.getD_eq_getElem?_getD, List.getElem?_map, List.getElem?_range hi]
  simp only [Option.map_some', Option.getD_some]
  rw [getD_map_scalePoint sf bbox i hi, getD_map_scalePoint sf bbox _ hmod]

/-- C4: every drawn polygon point is the source point rescaled by exactly
`scale_factor` = display-scale / decode-scale before drawing; consecutive
points are joined and the last segment returns to the first point (closed
outline); with display-scale 1/2 and decode-scale 4 the factor is 1/8
(= 0.125). -/
theorem c4_polygon_rescale (s : AppState) (bbox : List (ℚ × ℚ)) (hne : bbox ≠ []) :
    (∀ i, i < bbox.length →
        (polySegments (scale_factor s) bbox).getD i ((0, 0), (0, 0)) =
          (scalePoint (scale_factor s) (bbox.getD i (0, 0)),
           scalePoint (scale_factor s) (bbox.getD ((i + 1) % bbox.length) (0, 0)))) ∧
    ((polySegments (scale_factor s) bbox).getD (bbox.length - 1) ((0, 0), (0, 0))).2
      = scalePoint (scale_factor s) (bbox.getD 0 (0, 0)) ∧
    scale_factor { s with display_scale := 1/2, decode_scale := 4 } = 1/8 := by
  have hpos : 0 < bbox.length := List.length_pos.mpr hne
  refine ⟨fun i hi => polySegments_getD _ bbox i hi, ?_, ?_⟩
  · rw [polySegments_getD _ bbox (bbox.length - 1) (Nat.sub_lt hpos one_pos)]
    have h01 : bbox.length - 1 + 1 = bbox.length := by omega
    rw [h01, Nat.mod_self]
  · simp only [scale_factor]
    norm_num

/-- C4 witness: a one-point polygon under the scales the program runs with. -/
theorem c4_witness :
    ([((3 : ℚ), (4 : ℚ))] ≠ []) ∧
    ((∀ i, i < [((3 : ℚ), (4 : ℚ))].length →
        (polySegments (scale_factor scanState) [((3 : ℚ), (4 : ℚ))]).getD i ((0, 0), (0, 0)) =
          (scalePoint (scale_factor scanState) ([((3 : ℚ), (4 : ℚ))].getD i (0, 0)),
           scalePoint (scale_factor scanState)
             ([((3 : ℚ), (4 : ℚ))].getD ((i + 1) % [((3 : ℚ), (4 : ℚ))].length) (0, 0)))) ∧
    ((polySegments (scale_factor scanState) [((3 : ℚ), (4 : ℚ))]).getD
        ([((3 : ℚ), (4 : ℚ))].length - 1) ((0, 0), (0, 0))).2
      = scalePoint (scale_factor scanState) ([((3 : ℚ), (4 : ℚ))].getD 0 (0, 0)) ∧
    scale_factor { scanState with display_scale := 1/2, decode_scale := 4 } = 1/8) :=
  ⟨by simp, c4_polygon_rescale scanState [((3 : ℚ), (4 : ℚ))] (by simp)⟩

/-- C6: a successful resume from a paused session re-opens the camera,
clears the last-decoded memo, sets the session scanning again (and invokes a
tick); decoding any non-empty text afterwards - in particular the very text
seen before the pause - differs from the cleared memo and appends a new
history entry (the new history ends in that text, and is literally
`old ++ [t]` whenever the history is below the cap). -/
theorem c6_resume_clears_memo (s : AppState) (t : String)
    (hrun : s.running = false) (ht : t ≠ "") :
    (resume_scan s true).1 =
      { s with cameraOpen := true, last_result := none, running := true,
               status := waitingMsg } ∧
    (resume_scan s true).2.1 = true ∧
    (update_frame (resume_scan s true).1
        (TickInput.readOk ⟨true, [t], []⟩)).1.decoded_history
      = append_history s.history_size s.decoded_history t ∧
    ((update_frame (resume_scan s true).1
        (TickInput.readOk ⟨true, [t], []⟩)).1.decoded_history).getLastD "" = t ∧
    (s.decoded_history.length < s.history_size →
      (update_frame (resume_scan s true).1
          (TickInput.readOk ⟨true, [t], []⟩)).1.decoded_history
        = s.decoded_history ++ [t]) := by
  have h1 : resume_scan s true =
      ({ s with cameraOpen := true, last_result := none, running := true,
                status := waitingMsg },
       true, [Event.statusSet waitingMsg]) := by
    simp [resume_scan, hrun, open_camera]
  have hd : (decode_qr ⟨true, [t], []⟩).1 = [t] := by
    simp [decode_qr, List.filter_cons, ht]
  have hne : (decode_qr ⟨true, [t], []⟩).1 ≠ [] := by rw [hd]; simp
  have hlast : (decode_qr ⟨true, [t], []⟩).1.getLastD "" = t := by rw [hd]; rfl
  have hdet := update_frame_detect
      { s with cameraOpen := true, last_result := none, running := true,
               status := waitingMsg }
      ⟨true, [t], []⟩ rfl hne (by rw [hlast]; simp)
  refine ⟨by rw [h1], by rw [h1], ?_, ?_, ?_⟩
  · rw [h1, hdet]
    simp only [hlast]
  · rw [h1, hdet]
    simp only [hlast]
    exact append_history_getLastD _ _ _ ht
  · intro hlen
    rw [h1, hdet]
    simp only [hlast]
    exact append_history_of_lt _ _ _ ht hlen

/-- C6 witness: resuming from the paused state and seeing "hello" again,
with the history below the cap so the implication conjunct fires too. -/
theorem c6_witness :
    pausedState.running = false ∧ ("hello" : String) ≠ "" ∧
    ((resume_scan pausedState true).1 =
      { pausedState with cameraOpen := true, last_result := none, running := true,
                         status := waitingMsg } ∧
    (resume_scan pausedState true).2.1 = true ∧
    (update_frame (resume_scan pausedState true).1
        (TickInput.readOk ⟨true, ["hello"], []⟩)).1.decoded_history
      = append_history pausedState.history_size pausedState.decoded_history "hello" ∧
    ((update_frame (resume_scan pausedState true).1
        (TickInput.readOk ⟨true, ["hello"], []⟩)).1.decoded_history).getLastD ""
      = "hello" ∧
    (pausedState.decoded_history.length < pausedState.history_size →
      (update_frame (resume_scan pausedState true).1
          (TickInput.readOk ⟨true, ["hello"], []⟩)).1.decoded_history
        = pausedState.decoded_history ++ ["hello"])) :=
  ⟨rfl, by decide,
   c6_resume_clears_memo pausedState "hello" rfl (by decide)⟩

/-- C7: camera-open failure shows the error dialog; at startup the process
then exits immediately; on a resume while paused the session stays paused
(`running` false, memo untouched, history untouched, no tick invoked) and
the error is re-reported. -/
theorem c7_open_failure (s : AppState) (ci : Int) (hs : Nat) (ds decs : ℚ)
    (hrun : s.running = false) :
    (initApp ci hs ds decs false).1 = none ∧
    (initApp ci hs ds decs false).2 =
      [Event.showError "Camera Error" (camErrMsg ci), Event.exitProcess] ∧
    resume_scan s false =
      ({ s with cameraOpen := false }, false,
       [Event.showError "Camera Error" (camErrMsg s.camera_index)]) := by
  refine ⟨?_, ?_, ?_⟩
  · simp [initApp, open_camera, initState]
  · simp [initApp, open_camera, initState]
  · simp [resume_scan, hrun, open_camera]

/-- C7 witness: startup failure at camera index 0 and a failing resume on
the paused state. -/
theorem c7_witness :
    pausedState.running = false ∧
    ((initApp 0 20 1 1 false).1 = none ∧
    (initApp 0 20 1 1 false).2 =
      [Event.showError "Camera Error" (camErrMsg 0), Event.exitProcess] ∧
    resume_scan pausedState false =
      ({ pausedState with cameraOpen := false }, false,
       [Event.showError "Camera Error" (camErrMsg pausedState.camera_index)])) :=
  ⟨rfl, c7_open_failure pausedState 0 20 1 1 rfl⟩

/-- C8 counterexample: a located but undecodable code (`retval` true with
only an empty string decoded) makes `decode_qr` return no text at all yet
still return the polygon point sets, refuting "polygon point sets only if at
least one decoded text string was found". -/
theorem c8_counterexample :
    (decode_qr dEmptyText).1 = [] ∧ (decode_qr dEmptyText).2 ≠ none := by
  refine ⟨rfl, ?_⟩
  intro h
  simp [decode_qr, dEmptyText] at h

/-- C8 amended: the decode step returns only non-empty texts (empty strings
filtered out), and it returns the polygon point sets exactly when the
detector reports success (`retval`), independently of whether any decoded
text survived the filter. -/
theorem c8_texts_nonempty_points_iff_retval (d : DetectorResult) :
    (∀ t ∈ (decode_qr d).1, t ≠ "") ∧
    ((decode_qr d).2 = some d.pts ↔ d.retval = true) ∧
    ((decode_qr d).2 = none ↔ d.retval = false) := by
  refine ⟨decode_qr_texts_ne d, ?_, ?_⟩ <;>
    by_cases h : d.retval <;> simp [decode_qr, h]

/-- C9 counterexample: on the tick in which a new detection occurs the
callback returns before the display section, so although the frame was read
successfully nothing is rendered, refuting "including the tick on which a
new detection occurs ... the result is rendered". -/
theorem c9_counterexample :
    scanState.running = true ∧
    (update_frame scanState (TickInput.readOk dHello)).1.running = false ∧
    (update_frame scanState (TickInput.readOk dHello)).2.2.filter isRenderEvent = [] :=
  ⟨rfl, rfl, rfl⟩

/-- C9 amended: on every tick in which a frame is read successfully and that
does not produce a new detection, exactly one display frame is rendered: it
is resized by display-scale (no resize when that scale is 1.0), it carries
the polygon overlay segments when the detector returned points, and the next
tick is scheduled. -/
theorem c9_render_on_no_detection (s : AppState) (d : DetectorResult)
    (hrun : s.running = true)
    (hnd : ¬((decode_qr d).1 ≠ [] ∧ some ((decode_qr d).1.getLastD "") ≠ s.last_result)) :
    (update_frame s (TickInput.readOk d)).2.2.filter isRenderEvent =
      [Event.render (if s.display_scale = 1 then false else true) s.display_scale
        (match (decode_qr d).2 with
         | none => []
         | some ps => drawSegments (scale_factor s) ps)] ∧
    (update_frame s (TickInput.readOk d)).2.1 = some 10 ∧
    (update_frame s (TickInput.readOk d)).1
      = (if (decode_qr d).1 = [] then { s with status := waitingMsg } else s) := by
  rw [update_frame_no_detect s d hrun hnd]
  refine ⟨?_, rfl, rfl⟩
  by_cases hc : (decode_qr d).1 = [] <;>
    simp [hc, List.filter_cons, isRenderEvent]

/-- C9 witness: a located but undecodable code on the running state (frame
read, no new detection): the render event fires with the polygon segments. -/
theorem c9_witness :
    scanState.running = true ∧
    ¬((decode_qr dEmptyText).1 ≠ [] ∧
        some ((decode_qr dEmptyText).1.getLastD "") ≠ scanState.last_result) ∧
    ((update_frame scanState (TickInput.readOk dEmptyText)).2.2.filter isRenderEvent =
      [Event.render (if scanState.display_scale = 1 then false else true)
        scanState.display_scale
        (match (decode_qr dEmptyText).2 with
         | none => []
         | some ps => drawSegments (scale_factor scanState) ps)] ∧
    (update_frame scanState (TickInput.readOk dEmptyText)).2.1 = some 10 ∧
    (update_frame scanState (TickInput.readOk dEmptyText)).1
      = (if (decode_qr dEmptyText).1 = [] then { scanState with status := waitingMsg }
         else scanState)) :=
  ⟨rfl, by decide, c9_render_on_no_detection scanState dEmptyText rfl (by decide)⟩
